import Mathlib

/-
Verification of the PyDBC SQL-fragment builder (src/data/dml.py,
src/data/sqlutils.py, src/connector/constants.py,
src/pydbc/dialect/base_dialect.py) against its natural-language
specification.  The Python classes are shallowly embedded: objects become
structures, methods become functions, raised exceptions become values of
`PyError` threaded through `Except`, and a Python method returning `None`
where a string is expected is an `Option String`.
-/

namespace PyDBC

/-- Errors raised by the Python code: the three DML exception classes plus
the built-in TypeError (joining a None into a string buffer, or applying a
string operation to a non-string) and AttributeError (calling a method on
None). -/
inductive PyError where
  | noneColumnName
  | noneTableName
  | unsupportedJoinType
  | typeError
  | attributeError
deriving DecidableEq, Repr

/-- A comparison/filter value as used by the builder: a Python str or int. -/
inductive SqlValue where
  | str : String → SqlValue
  | int : Int → SqlValue
deriving DecidableEq, Repr

/-- Python str() applied to a value. -/
def SqlValue.toDisplay : SqlValue → String
  | .str s => s
  | .int n => toString n

-- Constants from src/connector/constants.py.
def CompareTypes.EQUALS : Int := 0
def CompareTypes.NOT_EQUAL : Int := 1
def CompareTypes.GREATER_THAN : Int := 2
def CompareTypes.GREATER_THAN_OR_EQUAL : Int := 3
def CompareTypes.LESS_THAN : Int := 4
def CompareTypes.LESS_THAN_OR_EQUAL : Int := 5
def CompareTypes.BEGINS_WITH : Int := 6
def CompareTypes.NOT_BEGIN_WITH : Int := 7
def CompareTypes.ENDS_WITH : Int := 8
def CompareTypes.NOT_END_WITH : Int := 9
def CompareTypes.CONTAINS : Int := 10
def CompareTypes.NOT_CONTAIN : Int := 11
def CompareTypes.IN : Int := 12
def CompareTypes.NOT_IN : Int := 13
def CompareTypes.NULL : Int := 14
def CompareTypes.NOT_NULL : Int := 15

def ValueTypes.STRING : Int := 0
def ValueTypes.INTEGER : Int := 1
def ValueTypes.LONG : Int := 2
def ValueTypes.OTHER : Int := -1

def RelationTypes.AND : Int := 0
def RelationTypes.OR : Int := 1

def JoinTypes.INNER_JOIN : Int := 0
def JoinTypes.RIGHT_JOIN : Int := 1
def JoinTypes.LEFT_JOIN : Int := 2
def JoinTypes.FULL_JOIN : Int := 3

def AggregateFunctions.AVG : Int := 0
def AggregateFunctions.COUNT : Int := 1
def AggregateFunctions.SUM : Int := 2
def AggregateFunctions.MAX : Int := 3
def AggregateFunctions.MIN : Int := 4

/-- Dialect from src/pydbc/dialect/base_dialect.py: a pair of quote
strings for table and column identifiers. -/
structure Dialect where
  table_quote : String
  column_quote : String
deriving DecidableEq, Repr

def Dialect.table2sql (d : Dialect) (table_name : String) : String :=
  d.table_quote ++ table_name ++ d.table_quote

def Dialect.column2sql (d : Dialect) (column_name : String) : String :=
  d.column_quote ++ column_name ++ d.column_quote

/-- The base Dialect instance, whose quote strings default to empty. -/
def defaultDialect : Dialect := { table_quote := "", column_quote := "" }

/-- Python truthiness of an optional string attribute, as tested by
statements of the form if self raw sql: (None and the empty string are
falsy). -/
def strTruthy : Option String → Bool
  | none => false
  | some s => !(s == "")

-- SQLUtils from src/data/sqlutils.py.

/-- SQLUtils.get_operator_with_value: maps a comparator code to its SQL
operator text, transforming the value for the LIKE family (string
concatenation, a TypeError on a non-string) and forcing it to the empty
string for the NULL checks; any unmatched code falls to the final else
branch returning the equality operator with the value unchanged. -/
def SQLUtils.get_operator_with_value (compare_type : Int) (value : SqlValue) :
    Except PyError (String × SqlValue) :=
  if compare_type = CompareTypes.EQUALS then .ok ("=", value)
  else if compare_type = CompareTypes.NOT_EQUAL then .ok ("!=", value)
  else if compare_type = CompareTypes.GREATER_THAN then .ok (">", value)
  else if compare_type = CompareTypes.GREATER_THAN_OR_EQUAL then .ok (">=", value)
  else if compare_type = CompareTypes.LESS_THAN then .ok ("<", value)
  else if compare_type = CompareTypes.LESS_THAN_OR_EQUAL then .ok ("<=", value)
  else if compare_type = CompareTypes.BEGINS_WITH then
    match value with
    | .str s => .ok (" LIKE ", .str (s ++ "%"))
    | .int _ => .error .typeError
  else if compare_type = CompareTypes.NOT_BEGIN_WITH then
    match value with
    | .str s => .ok (" NOT LIKE ", .str (s ++ "%"))
    | .int _ => .error .typeError
  else if compare_type = CompareTypes.ENDS_WITH then
    match value with
    | .str s => .ok (" LIKE ", .str ("%" ++ s))
    | .int _ => .error .typeError
  else if compare_type = CompareTypes.NOT_END_WITH then
    match value with
    | .str s => .ok (" NOT LIKE ", .str ("%" ++ s))
    | .int _ => .error .typeError
  else if compare_type = CompareTypes.CONTAINS then
    match value with
    | .str s => .ok (" LIKE ", .str ("%" ++ s ++ "%"))
    | .int _ => .error .typeError
  else if compare_type = CompareTypes.NOT_CONTAIN then
    match value with
    | .str s => .ok (" NOT LIKE ", .str ("%" ++ s ++ "%"))
    | .int _ => .error .typeError
  else if compare_type = CompareTypes.IN then .ok (" IN ", value)
  else if compare_type = CompareTypes.NOT_IN then .ok (" NOT IN ", value)
  else if compare_type = CompareTypes.NULL then .ok (" IS NULL", .str "")
  else if compare_type = CompareTypes.NOT_NULL then .ok (" IS NOT NULL", .str "")
  else .ok ("=", value)

/-- SQLUtils.get_sql_relation: the AND code maps to the AND keyword and
every other code falls to the else branch returning the OR keyword. -/
def SQLUtils.get_sql_relation (relation : Int) : String :=
  if relation = RelationTypes.AND then " AND " else " OR "

/-- SQLUtils.get_sql_order_type. -/
def SQLUtils.get_sql_order_type (asc : Bool) : String :=
  if !asc then " DESC" else " ASC"

/-- SQLUtils.get_aggr_func_with_column: wraps the column text in one of the
five aggregate function names, or yields None for any other code. -/
def SQLUtils.get_aggr_func_with_column (func_type : Int) (column_name : String) :
    Option String :=
  if func_type = AggregateFunctions.AVG then some ("AVG(" ++ column_name ++ ")")
  else if func_type = AggregateFunctions.COUNT then some ("COUNT(" ++ column_name ++ ")")
  else if func_type = AggregateFunctions.MAX then some ("MAX(" ++ column_name ++ ")")
  else if func_type = AggregateFunctions.MIN then some ("MIN(" ++ column_name ++ ")")
  else if func_type = AggregateFunctions.SUM then some ("SUM(" ++ column_name ++ ")")
  else none

/-- Modelled from the spec: SQLUtils.get_sql_join_operator is called by
Table.to_sql in src/data/dml.py but is absent from src/data/sqlutils.py.
Spec section 4.2: the four recognized join-type codes map to the INNER,
LEFT, RIGHT and FULL JOIN keywords (each padded with spaces) and an
unrecognized code yields no value. -/
def SQLUtils.get_sql_join_operator (join : Option Int) : Option String :=
  match join with
  | none => none
  | some j =>
    if j = JoinTypes.INNER_JOIN then some " INNER JOIN "
    else if j = JoinTypes.LEFT_JOIN then some " LEFT JOIN "
    else if j = JoinTypes.RIGHT_JOIN then some " RIGHT JOIN "
    else if j = JoinTypes.FULL_JOIN then some " FULL JOIN "
    else none

/-- Modelled from the spec: SQLUtils.get_sql_as_keyword is called by
Table.to_sql and Column.to_sql in src/data/dml.py but is absent from
src/data/sqlutils.py.  Spec section 4.2 fixed keyword helpers give the AS
keyword padded with spaces. -/
def SQLUtils.get_sql_as_keyword : String := " AS "

/-- Python membership test of a character in a string, as in the quote
guard of Column.to_sql. -/
def strContainsChar (s : String) (c : Char) : Bool :=
  s.data.contains c

/-- Column from src/data/dml.py, with the class-attribute defaults. -/
structure Column where
  name : String := ""
  table : Option String := none
  func : Option Int := none
  value : Option SqlValue := none
  type : Option Int := none
  compare : Option Int := none
  relation : Option Int := none
  aliasName : Option String := none
  asc : Bool := true
  is_first : Bool := true
  raw_sql : Option String := none
deriving DecidableEq, Repr

/-- Column.__init__: raises NoneColumnNameError exactly when the name is
None; any non-None name (including the empty string) is stored. -/
def Column.init (name : Option String) (is_first : Bool) : Except PyError Column :=
  match name with
  | some n => .ok { name := n, is_first := is_first }
  | none => .error .noneColumnName

/-- The column reference text computed at the start of Column.to_sql:
table.column with both parts dialect-quoted, or the quoted bare name. -/
def Column.colName (c : Column) (d : Dialect) : String :=
  match c.table with
  | some t => d.table2sql t ++ "." ++ d.column2sql c.name
  | none => d.column2sql c.name

/-- Column.to_sql.  Returns `some` text, or `none` when the quote guard
silently drops the column, or an error: a TypeError when the guard or the
string-quoting step probes a non-string value, or when the aggregate
lookup yielded None and the final string join meets it. -/
def Column.to_sql (c : Column) (d : Dialect) : Except PyError (Option String) :=
  if strTruthy c.raw_sql then .ok c.raw_sql
  else
    let col_name := c.colName d
    let guardE : Except PyError Bool :=
      match c.value, c.type with
      | some v, some t =>
        if t = ValueTypes.STRING then
          match v with
          | .str s => .ok (strContainsChar s '\x27' || strContainsChar s '\x22')
          | .int _ => .error .typeError
        else .ok false
      | _, _ => .ok false
    match guardE with
    | .error e => .error e
    | .ok true => .ok none
    | .ok false =>
      let sep : String :=
        if c.is_first then ""
        else match c.relation with
          | some r => SQLUtils.get_sql_relation r
          | none => ", "
      let body : Option String :=
        match c.func with
        | none => some (col_name ++ (if !c.asc then SQLUtils.get_sql_order_type c.asc else ""))
        | some f => SQLUtils.get_aggr_func_with_column f col_name
      let cmpE : Except PyError String :=
        match c.compare, c.value with
        | some cmp, some v =>
          match SQLUtils.get_operator_with_value cmp v with
          | .error e => .error e
          | .ok (op, val) =>
            if c.type = some ValueTypes.STRING then
              match val with
              | .str s => .ok (op ++ "\x27" ++ s ++ "\x27")
              | .int _ => .error .typeError
            else .ok (op ++ val.toDisplay)
        | _, _ => .ok ""
      match cmpE with
      | .error e => .error e
      | .ok cmpStr =>
        let aliasStr : String :=
          match c.aliasName with
          | some a => SQLUtils.get_sql_as_keyword ++ d.column2sql a
          | none => ""
        match body with
        | some b => .ok (some (sep ++ b ++ cmpStr ++ aliasStr))
        | none => .error .typeError

/-- The clause kind, standing for the four concrete ClauseBase subclasses
Where, Having, GroupBy and OrderBy of src/data/dml.py, which differ in
their keyword and in the Column their add_column builds. -/
inductive ClauseKind where
  | whereK
  | havingK
  | groupByK
  | orderByK
deriving DecidableEq, Repr

/-- The create_keyword override of each ClauseBase subclass. -/
def ClauseKind.create_keyword : ClauseKind → String
  | .whereK => " WHERE "
  | .havingK => " HAVING "
  | .groupByK => " GROUP BY "
  | .orderByK => " ORDER BY "

/-- ClauseBase: a clause keyword, a raw-SQL override and an ordered column
list. -/
structure ClauseBase where
  kind : ClauseKind
  raw_sql : Option String := none
  columns : List Column := []
deriving DecidableEq, Repr

/-- The column loop inside ClauseBase.to_sql: each column fragment in
order, a None fragment skipped, an exception propagated. -/
def renderClauseColumns (d : Dialect) : List Column → Except PyError String
  | [] => .ok ""
  | c :: rest =>
    match Column.to_sql c d with
    | .error e => .error e
    | .ok none => renderClauseColumns d rest
    | .ok (some s) =>
      match renderClauseColumns d rest with
      | .error e => .error e
      | .ok r => .ok (s ++ r)

/-- ClauseBase.to_sql: keyword plus raw SQL when the override is truthy,
else keyword plus the column fragments when any column exists, else the
empty string. -/
def ClauseBase.to_sql (cl : ClauseBase) (d : Dialect) : Except PyError String :=
  if strTruthy cl.raw_sql then .ok (cl.kind.create_keyword ++ cl.raw_sql.getD "")
  else if 0 < cl.columns.length then
    match renderClauseColumns d cl.columns with
    | .error e => .error e
    | .ok s => .ok (cl.kind.create_keyword ++ s)
  else .ok ""

/-- A fresh Where() instance. -/
def Where.new : ClauseBase := { kind := .whereK }

/-- A fresh Having() instance. -/
def Having.new : ClauseBase := { kind := .havingK }

/-- The Column built by Where.add_column before being appended. -/
def whereColumn (column_name : String) (column_value : Option SqlValue)
    (table_name : Option String) (column_type compare_type relation_type : Int)
    (is_first : Bool) : Column :=
  { name := column_name, is_first := is_first, value := column_value,
    table := table_name, type := some column_type,
    compare := some compare_type, relation := some relation_type }

/-- Where.add_column: refuses a None name, else appends a column carrying
value, table, type, comparator and relation, first iff the clause was
empty. -/
def Where.add_column (w : ClauseBase) (column_name : Option String)
    (column_value : Option SqlValue) (table_name : Option String)
    (column_type compare_type relation_type : Int) : Except PyError ClauseBase :=
  match column_name with
  | some n =>
    .ok { w with columns := w.columns ++
      [whereColumn n column_value table_name column_type compare_type
        relation_type (w.columns.length == 0)] }
  | none => .error .noneColumnName

/-- The Column built by Having.add_column before being appended. -/
def havingColumn (column_name : String) (aggr_func : Option Int)
    (column_value : Option SqlValue) (table_name : Option String)
    (column_type compare_type relation_type : Int) (is_first : Bool) : Column :=
  { name := column_name, is_first := is_first, func := aggr_func,
    value := column_value, table := table_name, type := some column_type,
    compare := some compare_type, relation := some relation_type }

/-- Having.add_column: like Where.add_column with an aggregate function. -/
def Having.add_column (h : ClauseBase) (column_name : Option String)
    (aggr_func : Option Int) (column_value : Option SqlValue)
    (table_name : Option String) (column_type compare_type relation_type : Int) :
    Except PyError ClauseBase :=
  match column_name with
  | some n =>
    .ok { h with columns := h.columns ++
      [havingColumn n aggr_func column_value table_name column_type
        compare_type relation_type (h.columns.length == 0)] }
  | none => .error .noneColumnName

/-- Condition from src/data/dml.py. -/
structure Condition where
  column_1 : Column
  column_2 : Option Column := none
  compare : Int := CompareTypes.EQUALS
  relation : Int := RelationTypes.AND
  is_first : Bool := true
deriving DecidableEq, Repr

/-- Condition.__init__: raises UnsupportedJoinTypeError when column_1 is
None, or when column_1 carries no value and column_2 is None. -/
def Condition.init (column_1 column_2 : Option Column)
    (compare_type relation_type : Int) (is_first : Bool) :
    Except PyError Condition :=
  match column_1 with
  | none => .error .unsupportedJoinType
  | some c1 =>
    if c1.value = none ∧ column_2 = none then .error .unsupportedJoinType
    else .ok { column_1 := c1, column_2 := column_2, compare := compare_type,
               relation := relation_type, is_first := is_first }

/-- Condition.to_sql: optional relation keyword, the first column, and when
that column carries no literal value, the comparator text and the second
column.  A None fragment from either column is met by the final string
join as a TypeError, and a missing second column as an AttributeError. -/
def Condition.to_sql (c : Condition) (d : Dialect) : Except PyError String :=
  let head : String := if c.is_first then "" else SQLUtils.get_sql_relation c.relation
  match Column.to_sql c.column_1 d with
  | .error e => .error e
  | .ok r1 =>
    if c.column_1.value = none then
      match SQLUtils.get_operator_with_value c.compare (.str "") with
      | .error e => .error e
      | .ok (op, _) =>
        match c.column_2 with
        | none => .error .attributeError
        | some c2 =>
          match Column.to_sql c2 d with
          | .error e => .error e
          | .ok r2 =>
            match r1, r2 with
            | some s1, some s2 => .ok (head ++ s1 ++ op ++ s2)
            | _, _ => .error .typeError
    else
      match r1 with
      | some s1 => .ok (head ++ s1)
      | none => .error .typeError

/-- JoinedConditions from src/data/dml.py. -/
structure JoinedConditions where
  raw_sql : Option String := none
  conditions : List Condition := []
deriving DecidableEq, Repr

/-- A fresh JoinedConditions() instance. -/
def JoinedConditions.new : JoinedConditions := {}

/-- JoinedConditions.create_keyword. -/
def JoinedConditions.create_keyword : String := " ON "

/-- JoinedConditions.add_condition: builds a Condition that is first iff
the sequence was empty, and appends it. -/
def JoinedConditions.add_condition (jc : JoinedConditions)
    (column_1 column_2 : Option Column) (compare_type relation_type : Int) :
    Except PyError JoinedConditions :=
  match Condition.init column_1 column_2 compare_type relation_type
      (jc.conditions.length == 0) with
  | .error e => .error e
  | .ok c => .ok { jc with conditions := jc.conditions ++ [c] }

/-- The condition loop inside JoinedConditions.to_sql. -/
def renderConditions (d : Dialect) : List Condition → Except PyError String
  | [] => .ok ""
  | c :: rest =>
    match Condition.to_sql c d with
    | .error e => .error e
    | .ok s =>
      match renderConditions d rest with
      | .error e => .error e
      | .ok r => .ok (s ++ r)

/-- JoinedConditions.to_sql: the ON keyword when any condition exists,
followed by the condition fragments.  No raw-SQL check is made here in the
source. -/
def JoinedConditions.to_sql (jc : JoinedConditions) (d : Dialect) :
    Except PyError String :=
  match renderConditions d jc.conditions with
  | .error e => .error e
  | .ok s =>
    .ok ((if 0 < jc.conditions.length then JoinedConditions.create_keyword else "") ++ s)

mutual
/-- Select from src/data/dml.py: distinct flag, column list, optional
table sequence, the four optional clauses, and a raw-SQL override. -/
inductive Select : Type where
  | mk : Bool → List Column → Option JoinedTables → Option ClauseBase →
      Option ClauseBase → Option ClauseBase → Option ClauseBase →
      Option String → Select

/-- JoinedTables from src/data/dml.py: raw-SQL override and table list. -/
inductive JoinedTables : Type where
  | mk : Option String → List Table → JoinedTables

/-- Table from src/data/dml.py: name, alias, nested select, join-type tag,
join condition, first flag, raw-SQL override. -/
inductive Table : Type where
  | mk : Option String → Option String → Option Select → Option Int →
      Option JoinedConditions → Bool → Option String → Table
end

def Select.distinct : Select → Bool
  | .mk b _ _ _ _ _ _ _ => b

def Select.columns : Select → List Column
  | .mk _ c _ _ _ _ _ _ => c

def Select.tables : Select → Option JoinedTables
  | .mk _ _ t _ _ _ _ _ => t

def Select.whereC : Select → Option ClauseBase
  | .mk _ _ _ w _ _ _ _ => w

def Select.havingC : Select → Option ClauseBase
  | .mk _ _ _ _ h _ _ _ => h

def Select.groupByC : Select → Option ClauseBase
  | .mk _ _ _ _ _ g _ _ => g

def Select.orderByC : Select → Option ClauseBase
  | .mk _ _ _ _ _ _ o _ => o

def Select.raw_sql : Select → Option String
  | .mk _ _ _ _ _ _ _ r => r

def Table.name : Table → Option String
  | .mk n _ _ _ _ _ _ => n

def Table.aliasName : Table → Option String
  | .mk _ a _ _ _ _ _ => a

def Table.select : Table → Option Select
  | .mk _ _ s _ _ _ _ => s

def Table.join : Table → Option Int
  | .mk _ _ _ j _ _ _ => j

def Table.condition : Table → Option JoinedConditions
  | .mk _ _ _ _ c _ _ => c

def Table.is_first : Table → Bool
  | .mk _ _ _ _ _ f _ => f

def Table.raw_sql : Table → Option String
  | .mk _ _ _ _ _ _ r => r

def JoinedTables.raw_sql : JoinedTables → Option String
  | .mk r _ => r

def JoinedTables.tablesList : JoinedTables → List Table
  | .mk _ t => t

/-- A fresh Select() instance. -/
def Select.new : Select := .mk false [] none none none none none none

/-- Select.create_keyword: the SELECT keyword, with DISTINCT iff the
distinct flag is set. -/
def Select.create_keyword (s : Select) : String :=
  if s.distinct then "SELECT DISTINCT " else "SELECT "

/-- Select.set_distinct. -/
def Select.set_distinct (s : Select) (b : Bool) : Select :=
  .mk b s.columns s.tables s.whereC s.havingC s.groupByC s.orderByC s.raw_sql

/-- Select.set_tables. -/
def Select.set_tables (s : Select) (t : JoinedTables) : Select :=
  .mk s.distinct s.columns (some t) s.whereC s.havingC s.groupByC s.orderByC s.raw_sql

/-- Select.set_where. -/
def Select.set_where (s : Select) (w : ClauseBase) : Select :=
  .mk s.distinct s.columns s.tables (some w) s.havingC s.groupByC s.orderByC s.raw_sql

/-- Select.add_column: refuses a None name, else appends a column carrying
table, aggregate function and alias, first iff the list was empty. -/
def Select.add_column (s : Select) (column_name : Option String)
    (table_name : Option String) (aggr_func : Option Int)
    (aliasArg : Option String) : Except PyError Select :=
  match column_name with
  | none => .error .noneColumnName
  | some n =>
    .ok (.mk s.distinct
      (s.columns ++ [{ name := n, is_first := s.columns.length == 0,
                       table := table_name, func := aggr_func, aliasName := aliasArg }])
      s.tables s.whereC s.havingC s.groupByC s.orderByC s.raw_sql)

/-- The column loop inside Select.to_sql, which collects each fragment
(possibly None) without the not-None check that ClauseBase.to_sql makes. -/
def renderSelectColumns (d : Dialect) : List Column → Except PyError (List (Option String))
  | [] => .ok []
  | c :: rest =>
    match Column.to_sql c d with
    | .error e => .error e
    | .ok o =>
      match renderSelectColumns d rest with
      | .error e => .error e
      | .ok os => .ok (o :: os)

/-- All fragments present, or None if any column contributed None (in the
source this surfaces as the TypeError of the final string join). -/
def allSome : List (Option String) → Option (List String)
  | [] => some []
  | none :: _ => none
  | some s :: rest => (allSome rest).map (fun l => s :: l)

/-- The clause contribution inside Select.to_sql: a falsy (None) clause
attribute contributes nothing. -/
def optClauseSql (d : Dialect) : Option ClauseBase → Except PyError String
  | none => .ok ""
  | some cl => ClauseBase.to_sql cl d

/-- Select.to_sql as written in src/data/dml.py lines 1042 to 1071: the
keyword plus raw SQL when the override is truthy; else, when any column
was added, the keyword, the column fragments, and the Where, Having,
GroupBy and OrderBy fragments in that order; else the empty string.  The
table sequence is never consulted and no FROM keyword is emitted. -/
def Select.to_sql (s : Select) (d : Dialect) : Except PyError String :=
  if strTruthy s.raw_sql then .ok (s.create_keyword ++ s.raw_sql.getD "")
  else if 0 < s.columns.length then
    match renderSelectColumns d s.columns with
    | .error e => .error e
    | .ok colOpts =>
      match optClauseSql d s.whereC with
      | .error e => .error e
      | .ok w =>
        match optClauseSql d s.havingC with
        | .error e => .error e
        | .ok h =>
          match optClauseSql d s.groupByC with
          | .error e => .error e
          | .ok g =>
            match optClauseSql d s.orderByC with
            | .error e => .error e
            | .ok o =>
              match allSome colOpts with
              | some frags => .ok (s.create_keyword ++ String.join frags ++ w ++ h ++ g ++ o)
              | none => .error .typeError
  else .ok ""

/-- Table.__init__: a non-None name is stored (with the alias) and any
supplied select object is ignored; with a None name, a select and an alias
are both required; otherwise NoneTableNameError. -/
def Table.init (name aliasArg : Option String) (selectArg : Option Select)
    (is_first : Bool) : Except PyError Table :=
  match name with
  | some n => .ok (.mk (some n) aliasArg none none none is_first none)
  | none =>
    match selectArg, aliasArg with
    | some s, some a => .ok (.mk none (some a) (some s) none none is_first none)
    | _, _ => .error .noneTableName

/-- Table.to_sql: raw SQL when truthy; else the join keyword when not
first (failing on an unrecognized join tag), then the named or nested
select body, then the join condition fragment when not first. -/
def Table.to_sql (t : Table) (d : Dialect) : Except PyError String :=
  if strTruthy t.raw_sql then .ok (t.raw_sql.getD "")
  else
    let joinE : Except PyError String :=
      if t.is_first then .ok ""
      else
        match SQLUtils.get_sql_join_operator t.join with
        | some j => .ok j
        | none => .error .unsupportedJoinType
    match joinE with
    | .error e => .error e
    | .ok jn =>
      let bodyE : Except PyError String :=
        match t.name with
        | some n =>
          .ok (d.table2sql n ++
            (match t.aliasName with
             | some a => SQLUtils.get_sql_as_keyword ++ d.table2sql a
             | none => ""))
        | none =>
          match t.select, t.aliasName with
          | some sel, some a =>
            match Select.to_sql sel d with
            | .error e => .error e
            | .ok s => .ok ("(" ++ s ++ ")" ++ SQLUtils.get_sql_as_keyword ++ d.table2sql a)
          | _, _ => .error .noneTableName
      match bodyE with
      | .error e => .error e
      | .ok body =>
        let condE : Except PyError String :=
          if t.is_first then .ok ""
          else
            match t.condition with
            | some jc => JoinedConditions.to_sql jc d
            | none => .error .attributeError
        match condE with
        | .error e => .error e
        | .ok cond => .ok (jn ++ body ++ cond)

/-- A fresh JoinedTables() instance. -/
def JoinedTables.new : JoinedTables := .mk none []

/-- JoinedTables.add_table: constructs the Table (first iff the list was
empty), then for a non-first table requires a condition and stores the
join tag and condition on it. -/
def JoinedTables.add_table (jt : JoinedTables) (name aliasArg : Option String)
    (selectArg : Option Select) (join : Int)
    (condition : Option JoinedConditions) : Except PyError JoinedTables :=
  let is_first := jt.tablesList.length == 0
  match Table.init name aliasArg selectArg is_first with
  | .error e => .error e
  | .ok t =>
    if is_first then .ok (.mk jt.raw_sql (jt.tablesList ++ [t]))
    else
      match condition with
      | none => .error .unsupportedJoinType
      | some c =>
        .ok (.mk jt.raw_sql (jt.tablesList ++
          [Table.mk t.name t.aliasName t.select (some join) (some c) t.is_first t.raw_sql]))

/-- The table loop inside JoinedTables.to_sql. -/
def renderTables (d : Dialect) : List Table → Except PyError String
  | [] => .ok ""
  | t :: rest =>
    match Table.to_sql t d with
    | .error e => .error e
    | .ok s =>
      match renderTables d rest with
      | .error e => .error e
      | .ok r => .ok (s ++ r)

/-- JoinedTables.to_sql: raw SQL when truthy, else the concatenated table
fragments. -/
def JoinedTables.to_sql (jt : JoinedTables) (d : Dialect) : Except PyError String :=
  if strTruthy jt.raw_sql then .ok (jt.raw_sql.getD "")
  else renderTables d jt.tablesList

/-- The state-threaded form of Select.to_sql.  The source method (and
every to_sql it calls) only reads fields and appends to local buffers; it
assigns to no attribute of self or of any owned object, so the faithful
state-passing translation returns the input state unchanged alongside the
rendered text. -/
def Select.to_sqlS (s : Select) (d : Dialect) : Except PyError String × Select :=
  (Select.to_sql s d, s)

-- Concrete builder scenarios taken from src/test/dml_test.py.

/-- Select over table foo with no columns (test_simple_select_all). -/
def c1SelectAll : Except PyError String :=
  match JoinedTables.add_table JoinedTables.new (some "foo") none none
      JoinTypes.INNER_JOIN none with
  | .error e => .error e
  | .ok jt => Select.to_sql (Select.set_tables Select.new jt) defaultDialect

/-- Select over table foo with columns alpha and beta. -/
def c1SelectCols : Except PyError String :=
  match JoinedTables.add_table JoinedTables.new (some "foo") none none
      JoinTypes.INNER_JOIN none with
  | .error e => .error e
  | .ok jt =>
    match Select.add_column (Select.set_tables Select.new jt) (some "alpha")
        none none none with
    | .error e => .error e
    | .ok s1 =>
      match Select.add_column s1 (some "beta") none none none with
      | .error e => .error e
      | .ok s2 => Select.to_sql s2 defaultDialect

/-- Column alpha of table foo, as built by Column("alpha") with table set. -/
def colFooAlpha : Column := { name := "alpha", table := some "foo" }

/-- Column beta of table bar. -/
def colBarBeta : Column := { name := "beta", table := some "bar" }

/-- The join condition foo.alpha equals bar.beta. -/
def jcFooBar : Except PyError JoinedConditions :=
  JoinedConditions.add_condition JoinedConditions.new (some colFooAlpha)
    (some colBarBeta) CompareTypes.EQUALS RelationTypes.AND

/-- The join condition foo.alpha equals bar.beta as a plain value, the
result of adding that condition to a fresh JoinedConditions. -/
def jcFooBarVal : JoinedConditions :=
  { conditions := [{ column_1 := colFooAlpha, column_2 := some colBarBeta }] }

/-- Tables foo LEFT JOIN bar ON foo.alpha=bar.beta (test_two_tables_join). -/
def c2Tables : Except PyError String :=
  match JoinedTables.add_table JoinedTables.new (some "foo") none none
      JoinTypes.INNER_JOIN none with
  | .error e => .error e
  | .ok jt1 =>
    match jcFooBar with
    | .error e => .error e
    | .ok jc =>
      match JoinedTables.add_table jt1 (some "bar") none none
          JoinTypes.LEFT_JOIN (some jc) with
      | .error e => .error e
      | .ok jt2 => JoinedTables.to_sql jt2 defaultDialect

/-- A Where clause whose only column carries the string value ba'r. -/
def c3Where : Except PyError String :=
  match Where.add_column Where.new (some "foo") (some (.str "ba\x27r")) none
      ValueTypes.STRING CompareTypes.EQUALS RelationTypes.AND with
  | .error e => .error e
  | .ok w => ClauseBase.to_sql w defaultDialect

/-- Where with alpha less-or-equal 1 then string foo equals bar, AND. -/
def c5WhereAnd : Except PyError String :=
  match Where.add_column Where.new (some "alpha") (some (.int 1)) none
      ValueTypes.INTEGER CompareTypes.LESS_THAN_OR_EQUAL RelationTypes.AND with
  | .error e => .error e
  | .ok w1 =>
    match Where.add_column w1 (some "foo") (some (.str "bar")) none
        ValueTypes.STRING CompareTypes.EQUALS RelationTypes.AND with
    | .error e => .error e
    | .ok w2 => ClauseBase.to_sql w2 defaultDialect

/-- Where with alpha equals 1 then string foo equals bar, OR relation. -/
def c5WhereOr : Except PyError String :=
  match Where.add_column Where.new (some "alpha") (some (.int 1)) none
      ValueTypes.INTEGER CompareTypes.EQUALS RelationTypes.AND with
  | .error e => .error e
  | .ok w1 =>
    match Where.add_column w1 (some "foo") (some (.str "bar")) none
        ValueTypes.STRING CompareTypes.EQUALS RelationTypes.OR with
    | .error e => .error e
    | .ok w2 => ClauseBase.to_sql w2 defaultDialect

-- String concatenation helpers used to normalize rendered fragments.

theorem string_append_empty (s : String) : s ++ "" = s := by
  cases s with
  | mk l =>
    show String.mk (l ++ []) = String.mk l
    rw [List.append_nil]

theorem string_empty_append (s : String) : "" ++ s = s := by
  cases s with
  | mk l =>
    show String.mk ([] ++ l) = String.mk l
    rw [List.nil_append]

theorem string_append_assoc (a b c : String) : a ++ b ++ c = a ++ (b ++ c) := by
  cases a with
  | mk la =>
    cases b with
    | mk lb =>
      cases c with
      | mk lc =>
        show String.mk (la ++ lb ++ lc) = String.mk (la ++ (lb ++ lc))
        rw [List.append_assoc]

/-- C1: the claim says Select.to_sql renders the select-all shorthand
SELECT * FROM foo when no columns were added and a table sequence is set,
and SELECT alpha, beta FROM foo with columns.  The code in
src/data/dml.py lines 1042 to 1071 never consults the table sequence and
never emits the FROM keyword: a column-less Select over foo renders the
empty string, and one with columns alpha and beta renders SELECT alpha,
beta with no FROM fragment, contradicting the repository's own tests in
src/test/dml_test.py. -/
theorem C1_select_never_renders_tables :
    c1SelectAll = .ok "" ∧
    c1SelectCols = .ok "SELECT alpha, beta" ∧
    ("" : String) ≠ "SELECT * FROM foo" ∧
    ("SELECT alpha, beta" : String) ≠ "SELECT alpha, beta FROM foo" :=
  ⟨rfl, rfl, by decide, by decide⟩

/-- C4: the claim says constructing a Column with an empty or absent name
fails.  Counterexample: the empty string is not None, so Column
construction and Where.add_column both accept it. -/
theorem C4_counterexample :
    Column.init (some "") true = .ok { name := "" } ∧
    Where.add_column Where.new (some "") (some (.int 1)) none
      ValueTypes.INTEGER CompareTypes.EQUALS RelationTypes.AND =
      .ok { kind := .whereK,
            columns := [whereColumn "" (some (.int 1)) none ValueTypes.INTEGER
              CompareTypes.EQUALS RelationTypes.AND true] } :=
  ⟨rfl, rfl⟩

/-- C4 amended: construction fails exactly when the name is absent (None);
every non-None name, the empty string included, is accepted, both for
direct Column construction and for a clause's add_column. -/
theorem C4_none_name_rejected_any_string_accepted :
    ∀ (b : Bool) (n : String) (v : Option SqlValue) (tn : Option String)
      (ty cmp rel : Int),
    Column.init none b = .error .noneColumnName ∧
    Column.init (some n) b = .ok { name := n, is_first := b } ∧
    Where.add_column Where.new none v tn ty cmp rel = .error .noneColumnName ∧
    Where.add_column Where.new (some n) v tn ty cmp rel =
      .ok { kind := .whereK, columns := [whereColumn n v tn ty cmp rel true] } :=
  fun _ _ _ _ _ _ _ => ⟨rfl, rfl, rfl, rfl⟩

/-- C7: the relation lookup returns the AND keyword for the AND code and
the OR keyword for every other code, never failing. -/
theorem C7_relation_lookup :
    ∀ (r : Int),
    SQLUtils.get_sql_relation RelationTypes.AND = " AND " ∧
    (r ≠ RelationTypes.AND → SQLUtils.get_sql_relation r = " OR ") :=
  fun r => ⟨rfl, fun h => by simp only [SQLUtils.get_sql_relation, if_neg h]⟩

/-- C7 witness at the unrecognized code 5. -/
theorem C7_relation_lookup_witness :
    SQLUtils.get_sql_relation 5 = " OR " :=
  (C7_relation_lookup 5).2 (by decide)

/-- C9: rendering is idempotent and read-only.  The source to_sql methods
assign to no field of self or of any owned object, so the state-threaded
rendering returns its state unchanged, two successive renders return equal
strings, and the threaded result agrees with the pure rendering. -/
theorem C9_render_idempotent_and_pure :
    ∀ (s : Select) (d : Dialect),
    (Select.to_sqlS s d).2 = s ∧
    (Select.to_sqlS s d).1 = Select.to_sql s d ∧
    (Select.to_sqlS ((Select.to_sqlS s d).2) d).1 = (Select.to_sqlS s d).1 :=
  fun _ _ => ⟨rfl, rfl, rfl⟩

/-- C6: the operator lookup returns exactly the operator text and value
transformation of spec section 4.2 for each of the sixteen recognized
comparator codes, and for every code outside them, negative codes
included, it returns the equality operator with the value unchanged and
does not fail. -/
theorem C6_operator_lookup :
    ∀ (c : Int) (v : SqlValue) (s : String),
    SQLUtils.get_operator_with_value CompareTypes.EQUALS v = .ok ("=", v) ∧
    SQLUtils.get_operator_with_value CompareTypes.NOT_EQUAL v = .ok ("!=", v) ∧
    SQLUtils.get_operator_with_value CompareTypes.GREATER_THAN v = .ok (">", v) ∧
    SQLUtils.get_operator_with_value CompareTypes.GREATER_THAN_OR_EQUAL v = .ok (">=", v) ∧
    SQLUtils.get_operator_with_value CompareTypes.LESS_THAN v = .ok ("<", v) ∧
    SQLUtils.get_operator_with_value CompareTypes.LESS_THAN_OR_EQUAL v = .ok ("<=", v) ∧
    SQLUtils.get_operator_with_value CompareTypes.BEGINS_WITH (.str s) =
      .ok (" LIKE ", .str (s ++ "%")) ∧
    SQLUtils.get_operator_with_value CompareTypes.NOT_BEGIN_WITH (.str s) =
      .ok (" NOT LIKE ", .str (s ++ "%")) ∧
    SQLUtils.get_operator_with_value CompareTypes.ENDS_WITH (.str s) =
      .ok (" LIKE ", .str ("%" ++ s)) ∧
    SQLUtils.get_operator_with_value CompareTypes.NOT_END_WITH (.str s) =
      .ok (" NOT LIKE ", .str ("%" ++ s)) ∧
    SQLUtils.get_operator_with_value CompareTypes.CONTAINS (.str s) =
      .ok (" LIKE ", .str ("%" ++ s ++ "%")) ∧
    SQLUtils.get_operator_with_value CompareTypes.NOT_CONTAIN (.str s) =
      .ok (" NOT LIKE ", .str ("%" ++ s ++ "%")) ∧
    SQLUtils.get_operator_with_value CompareTypes.IN v = .ok (" IN ", v) ∧
    SQLUtils.get_operator_with_value CompareTypes.NOT_IN v = .ok (" NOT IN ", v) ∧
    SQLUtils.get_operator_with_value CompareTypes.NULL v = .ok (" IS NULL", .str "") ∧
    SQLUtils.get_operator_with_value CompareTypes.NOT_NULL v = .ok (" IS NOT NULL", .str "") ∧
    (c < 0 ∨ 15 < c → SQLUtils.get_operator_with_value c v = .ok ("=", v)) := by
  intro c v s
  refine ⟨rfl, rfl, rfl, rfl, rfl, rfl, rfl, rfl, rfl, rfl, rfl, rfl, rfl, rfl,
    rfl, rfl, ?_⟩
  intro h
  have e0 : ¬(c = 0) := by omega
  have e1 : ¬(c = 1) := by omega
  have e2 : ¬(c = 2) := by omega
  have e3 : ¬(c = 3) := by omega
  have e4 : ¬(c = 4) := by omega
  have e5 : ¬(c = 5) := by omega
  have e6 : ¬(c = 6) := by omega
  have e7 : ¬(c = 7) := by omega
  have e8 : ¬(c = 8) := by omega
  have e9 : ¬(c = 9) := by omega
  have e10 : ¬(c = 10) := by omega
  have e11 : ¬(c = 11) := by omega
  have e12 : ¬(c = 12) := by omega
  have e13 : ¬(c = 13) := by omega
  have e14 : ¬(c = 14) := by omega
  have e15 : ¬(c = 15) := by omega
  simp only [SQLUtils.get_operator_with_value, CompareTypes.EQUALS,
    CompareTypes.NOT_EQUAL, CompareTypes.GREATER_THAN,
    CompareTypes.GREATER_THAN_OR_EQUAL, CompareTypes.LESS_THAN,
    CompareTypes.LESS_THAN_OR_EQUAL, CompareTypes.BEGINS_WITH,
    CompareTypes.NOT_BEGIN_WITH, CompareTypes.ENDS_WITH,
    CompareTypes.NOT_END_WITH, CompareTypes.CONTAINS,
    CompareTypes.NOT_CONTAIN, CompareTypes.IN, CompareTypes.NOT_IN,
    CompareTypes.NULL, CompareTypes.NOT_NULL, e0, e1, e2, e3, e4, e5, e6,
    e7, e8, e9, e10, e11, e12, e13, e14, e15, ite_false, if_false]

/-- C6 witness at the out-of-range code minus seven. -/
theorem C6_operator_lookup_witness :
    SQLUtils.get_operator_with_value (-7) (.int 3) = .ok ("=", .int 3) :=
  (C6_operator_lookup (-7) (.int 3) "").2.2.2.2.2.2.2.2.2.2.2.2.2.2.2.2
    (Or.inl (by decide))

/-- C3: the claim says a Where clause whose only column carries a
string-typed value containing a single quote renders to the empty string.
Counterexample: ClauseBase.to_sql appends the clause keyword before the
column loop, so the clause over the sole dropped column renders the bare
WHERE keyword, which is not the empty string. -/
theorem C3_counterexample :
    c3Where = .ok " WHERE " ∧ (" WHERE " : String) ≠ "" :=
  ⟨rfl, by decide⟩

/-- C3 amended: for every Where clause (no raw-SQL override) whose only
column carries a string-typed literal containing a single-quote character,
the column contributes no text and the clause's to_sql returns exactly the
bare keyword, a lone WHERE with nothing after it. -/
theorem C3_quote_guard_drops_column_keeps_keyword :
    ∀ (c : Column) (d : Dialect) (s : String),
    c.raw_sql = none → c.value = some (.str s) → c.type = some ValueTypes.STRING →
    strContainsChar s '\x27' = true →
    Column.to_sql c d = .ok none ∧
    ClauseBase.to_sql { kind := .whereK, raw_sql := none, columns := [c] } d =
      .ok " WHERE " := by
  intro c d s h1 h2 h3 h4
  have hcol : Column.to_sql c d = .ok none := by
    simp [Column.to_sql, h1, h2, h3, h4, strTruthy]
  refine ⟨hcol, ?_⟩
  simp [ClauseBase.to_sql, renderClauseColumns, hcol, strTruthy,
    ClauseKind.create_keyword, string_append_empty]

/-- C3 witness at the column foo with value containing a quote. -/
theorem C3_quote_guard_witness :
    Column.to_sql (whereColumn "foo" (some (.str "ba\x27r")) none
      ValueTypes.STRING CompareTypes.EQUALS RelationTypes.AND true)
      defaultDialect = .ok none ∧
    ClauseBase.to_sql { kind := .whereK, raw_sql := none,
                        columns := [whereColumn "foo" (some (.str "ba\x27r")) none
                          ValueTypes.STRING CompareTypes.EQUALS RelationTypes.AND true] }
      defaultDialect = .ok " WHERE " :=
  C3_quote_guard_drops_column_keeps_keyword _ defaultDialect "ba\x27r"
    rfl rfl rfl rfl

/-- C5: the two-column Where clauses of the claim render to WHERE
alpha<=1 AND foo='bar' and to WHERE alpha=1 OR foo='bar' under the
no-quote dialect; in general a string-typed comparison value (free of
quote characters) is wrapped in single quotes, a non-first Where column is
prefixed by its relation keyword, and a first column gets no leading
separator. -/
theorem C5_where_two_columns :
    c5WhereAnd = .ok " WHERE alpha<=1 AND foo=\x27bar\x27" ∧
    c5WhereOr = .ok " WHERE alpha=1 OR foo=\x27bar\x27" ∧
    (∀ (n v op tv : String) (cmp rel : Int) (d : Dialect),
      strContainsChar v '\x27' = false → strContainsChar v '\x22' = false →
      SQLUtils.get_operator_with_value cmp (.str v) = .ok (op, .str tv) →
      Column.to_sql (whereColumn n (some (.str v)) none ValueTypes.STRING
          cmp rel false) d =
        .ok (some (SQLUtils.get_sql_relation rel ++
          (d.column2sql n ++ (op ++ "\x27" ++ tv ++ "\x27")))) ∧
      Column.to_sql (whereColumn n (some (.str v)) none ValueTypes.STRING
          cmp rel true) d =
        .ok (some (d.column2sql n ++ (op ++ "\x27" ++ tv ++ "\x27")))) := by
  refine ⟨rfl, rfl, ?_⟩
  intro n v op tv cmp rel d h1 h2 h3
  constructor <;>
  · simp [Column.to_sql, whereColumn, Column.colName, strTruthy, h1, h2, h3,
      ValueTypes.STRING, string_append_empty, string_empty_append,
      string_append_assoc]

/-- C5 witness at the second column foo equals bar with the OR relation. -/
theorem C5_where_two_columns_witness :
    Column.to_sql (whereColumn "foo" (some (.str "bar")) none
      ValueTypes.STRING CompareTypes.EQUALS RelationTypes.OR false)
      defaultDialect = .ok (some " OR foo=\x27bar\x27") ∧
    Column.to_sql (whereColumn "foo" (some (.str "bar")) none
      ValueTypes.STRING CompareTypes.EQUALS RelationTypes.OR true)
      defaultDialect = .ok (some "foo=\x27bar\x27") :=
  C5_where_two_columns.2.2 "foo" "bar" "=" "bar" CompareTypes.EQUALS
    RelationTypes.OR defaultDialect rfl rfl rfl

/-- C2: the JoinedTables with foo, then bar added with LEFT JOIN on
foo.alpha equals bar.beta, renders under the no-quote dialect to foo LEFT
JOIN bar ON foo.alpha=bar.beta; in general a non-first named table with a
recognized join tag renders as the join keyword, the quoted name with
optional AS alias, and the ON condition fragment. -/
theorem C2_left_join_render :
    c2Tables = .ok "foo LEFT JOIN bar ON foo.alpha=bar.beta" ∧
    (∀ (t : Table) (d : Dialect) (n kw cond : String) (j : Int)
      (jc : JoinedConditions),
      t.raw_sql = none → t.is_first = false → t.name = some n →
      t.join = some j → SQLUtils.get_sql_join_operator (some j) = some kw →
      t.condition = some jc → JoinedConditions.to_sql jc d = .ok cond →
      Table.to_sql t d =
        .ok (kw ++
          ((d.table2sql n ++
            (match t.aliasName with
             | some a => SQLUtils.get_sql_as_keyword ++ d.table2sql a
             | none => "")) ++ cond))) := by
  refine ⟨rfl, ?_⟩
  intro t d n kw cond j jc h1 h2 h3 h4 h5 h6 h7
  cases ha : t.aliasName with
  | none =>
    simp [Table.to_sql, h1, h2, h3, h4, h5, h6, h7, ha, strTruthy,
      string_append_empty, string_empty_append, string_append_assoc]
  | some a =>
    simp [Table.to_sql, h1, h2, h3, h4, h5, h6, h7, ha, strTruthy,
      string_append_empty, string_empty_append, string_append_assoc]

/-- C2 witness at a concrete non-first bar table joined LEFT JOIN. -/
theorem C2_left_join_render_witness :
    Table.to_sql (Table.mk (some "bar") none none (some JoinTypes.LEFT_JOIN)
      (some jcFooBarVal) false none) defaultDialect =
      .ok " LEFT JOIN bar ON foo.alpha=bar.beta" :=
  C2_left_join_render.2 _ defaultDialect "bar" " LEFT JOIN "
    " ON foo.alpha=bar.beta" JoinTypes.LEFT_JOIN jcFooBarVal
    rfl rfl rfl rfl rfl rfl rfl

/-- C10: constructing a Table with a non-absent name and a non-absent
nested select plus alias does not fail; the named form takes precedence,
the select is never stored, construction agrees with the select-free
construction, and the table renders as the quoted name with its alias. -/
theorem C10_name_precedence_over_select :
    ∀ (n a : String) (sel : Select) (fst : Bool) (d : Dialect),
    Table.init (some n) (some a) (some sel) fst =
      .ok (Table.mk (some n) (some a) none none none fst none) ∧
    Table.init (some n) (some a) (some sel) fst =
      Table.init (some n) (some a) none fst ∧
    Table.to_sql (Table.mk (some n) (some a) none none none true none) d =
      .ok (d.table2sql n ++ (SQLUtils.get_sql_as_keyword ++ d.table2sql a)) := by
  intro n a sel fst d
  refine ⟨rfl, rfl, ?_⟩
  simp [Table.to_sql, Table.raw_sql, Table.is_first, Table.name,
    Table.aliasName, strTruthy, string_append_empty, string_empty_append,
    string_append_assoc]

/-- C8: the aggregate lookup wraps the column text for the five
recognized codes and yields no value for any other code; a column carrying
an unrecognized aggregate code renders to an error propagated to the
caller (the TypeError of joining the None into the buffer), while a column
carrying a recognized code renders to the aggregate text wrapping the
dialect-quoted column reference. -/
theorem C8_aggregate_lookup_and_render :
    ∀ (f : Int) (cn n fs : String) (k : Int) (rel : Int) (fst : Bool)
      (d : Dialect) (c : Column),
    SQLUtils.get_aggr_func_with_column AggregateFunctions.AVG cn =
      some ("AVG(" ++ cn ++ ")") ∧
    SQLUtils.get_aggr_func_with_column AggregateFunctions.COUNT cn =
      some ("COUNT(" ++ cn ++ ")") ∧
    SQLUtils.get_aggr_func_with_column AggregateFunctions.MAX cn =
      some ("MAX(" ++ cn ++ ")") ∧
    SQLUtils.get_aggr_func_with_column AggregateFunctions.MIN cn =
      some ("MIN(" ++ cn ++ ")") ∧
    SQLUtils.get_aggr_func_with_column AggregateFunctions.SUM cn =
      some ("SUM(" ++ cn ++ ")") ∧
    (f < 0 ∨ 4 < f → SQLUtils.get_aggr_func_with_column f cn = none) ∧
    (f < 0 ∨ 4 < f →
      Column.to_sql (havingColumn n (some f) (some (.int k)) none
        ValueTypes.INTEGER CompareTypes.EQUALS rel fst) d = .error .typeError) ∧
    (c.raw_sql = none → c.value = none → c.compare = none →
      c.aliasName = none → c.is_first = true → c.func = some f →
      SQLUtils.get_aggr_func_with_column f (c.colName d) = some fs →
      Column.to_sql c d = .ok (some fs)) := by
  intro f cn n fs k rel fst d c
  have hl : ∀ (h : f < 0 ∨ 4 < f) (s : String),
      SQLUtils.get_aggr_func_with_column f s = none := by
    intro h s
    have a0 : ¬(f = 0) := by omega
    have a1 : ¬(f = 1) := by omega
    have a2 : ¬(f = 2) := by omega
    have a3 : ¬(f = 3) := by omega
    have a4 : ¬(f = 4) := by omega
    simp only [SQLUtils.get_aggr_func_with_column, AggregateFunctions.AVG,
      AggregateFunctions.COUNT, AggregateFunctions.MAX,
      AggregateFunctions.MIN, AggregateFunctions.SUM, a0, a1, a2, a3, a4,
      ite_false, if_false]
  refine ⟨rfl, rfl, rfl, rfl, rfl, fun h => hl h cn, ?_, ?_⟩
  · intro h
    simp [Column.to_sql, havingColumn, strTruthy, hl h, Column.colName,
      ValueTypes.INTEGER, ValueTypes.STRING, CompareTypes.EQUALS,
      SQLUtils.get_operator_with_value]
  · intro h1 h2 h3 h4 h5 h6 h7
    simp [Column.to_sql, h1, h2, h3, h4, h5, h6, h7, strTruthy,
      string_append_empty, string_empty_append]

/-- C8 witness: the unrecognized code 9 yields no value and a TypeError
from rendering, while the AVG code renders the wrapped reference. -/
theorem C8_aggregate_witness :
    SQLUtils.get_aggr_func_with_column 9 "alpha" = none ∧
    Column.to_sql (havingColumn "alpha" (some 9) (some (.int 1)) none
      ValueTypes.INTEGER CompareTypes.EQUALS RelationTypes.AND true)
      defaultDialect = .error .typeError ∧
    Column.to_sql { name := "alpha", func := some AggregateFunctions.AVG }
      defaultDialect = .ok (some "AVG(alpha)") :=
  ⟨(C8_aggregate_lookup_and_render 9 "alpha" "x" "y" 0 0 true defaultDialect
      { name := "x" }).2.2.2.2.2.1 (Or.inr (by decide)),
   (C8_aggregate_lookup_and_render 9 "x" "alpha" "y" 1 RelationTypes.AND true
      defaultDialect { name := "x" }).2.2.2.2.2.2.1 (Or.inr (by decide)),
   (C8_aggregate_lookup_and_render AggregateFunctions.AVG "x" "y" "AVG(alpha)"
      0 0 true defaultDialect
      { name := "alpha", func := some AggregateFunctions.AVG }).2.2.2.2.2.2.2
      rfl rfl rfl rfl rfl rfl rfl⟩

end PyDBC
